import Mathlib

/-!
Shallow embedding of the Authentication & Admission Control subsystem of
`src/app.py` (a FastAPI backend gating an image-classification endpoint).

Modelling conventions:
* Time is an integer Unix timestamp in seconds (`Int`).  `datetime.utcnow()`
  becomes an explicit `now : Int` parameter; the two `utcnow()` calls inside
  `create_access_token` observe the same clock reading.
* JWTs are modelled symbolically (ideal-MAC / Dolev-Yao style): a signature is
  the triple (key, algorithm, payload) it was computed over, so a signature
  check succeeds exactly when key, algorithm and payload all coincide.  A raw
  byte string that does not parse as a JWT is the `malformed` constructor.
* bcrypt is modelled symbolically the same way: a well-formed stored digest
  records the salt and the hashed secret, and `checkpw` compares secrets;
  a malformed digest makes `checkpw` raise, which `verify_password` catches.
* The persistence collaborator is a `List UserRow`; `fetchrow` on a
  `WHERE email = $1` / `WHERE id = $1` query is `List.find?`.
* Python exceptions escaping to the HTTP boundary are `Except` errors:
  `HTTPException(status, detail)` is `AppError.httpException status detail`,
  and a non-HTTP exception escaping a handler (surfaced by FastAPI as a 500
  internal server error) is its own constructor.
* Python's `re.search(r"\d", s)` also matches non-ASCII Unicode decimal
  digits; the model restricts "digit" to ASCII digits, which is the reading
  both the code and the spec use.  Likewise `\s` and `str.strip()` are
  modelled over Python's ASCII whitespace set.
-/

namespace LeafApp

/-- Process-wide configuration established at startup (src/app.py lines
86-91): the JWT signing key, the algorithm identifier (default "HS256") and
the token TTL in hours (default 24). -/
structure Config where
  JWT_SECRET_KEY : String
  JWT_ALGORITHM : String := "HS256"
  JWT_EXPIRATION_HOURS : Int := 24
deriving DecidableEq, Repr

/-- The JWT payload built by `create_access_token` (src/app.py lines 176-181):
subject id, subject email, expiry timestamp and issued-at timestamp. -/
structure Payload where
  user_id : Int
  email : String
  exp : Int
  iat : Int
deriving DecidableEq, Repr

/-- Symbolic HMAC signature: in the ideal-MAC model a signature is exactly
the data it was computed over, so two signatures are equal iff the key, the
algorithm and the signed payload all agree. -/
structure JwtSig where
  key : String
  alg : String
  payload : Payload
deriving DecidableEq, Repr

/-- A raw token string as the verifier sees it: either it parses into a
header algorithm, a payload and a signature, or it is structurally malformed
(not three base64url segments of valid JSON). -/
inductive JwtToken where
  | malformed (raw : String)
  | signed (header_alg : String) (payload : Payload) (sig : JwtSig)
deriving DecidableEq, Repr

/-- Model of PyJWT `jwt.encode(payload, key, algorithm=alg)`: serialize the
payload with header algorithm `alg` and sign it with `key`. -/
def jwtEncode (key alg : String) (p : Payload) : JwtToken :=
  .signed alg p ⟨key, alg, p⟩

/-- The exceptions PyJWT's `jwt.decode` raises, as relevant here: expired
`exp` claim, signature mismatch, malformed structure, or a header algorithm
outside the allowed `algorithms` list. -/
inductive PyJwtError where
  | expiredSignature
  | invalidSignature
  | decodeError
  | invalidAlgorithm
deriving DecidableEq, Repr

/-- Model of PyJWT `jwt.decode(token, key, algorithms=[alg])`: reject a
malformed token, then a token whose header algorithm is not the allowed one,
then a signature that was not produced with (key, alg) over this payload;
finally validate the `exp` claim, which fails once `exp ≤ now` (PyJWT
`_validate_exp` with zero leeway).  Signature and algorithm are checked
before claim validation, as in PyJWT. -/
def jwtDecode (key alg : String) (now : Int) (t : JwtToken) : Except PyJwtError Payload :=
  match t with
  | .malformed _ => .error .decodeError
  | .signed h p s =>
    if h ≠ alg then .error .invalidAlgorithm
    else if s ≠ ⟨key, alg, p⟩ then .error .invalidSignature
    else if p.exp ≤ now then .error .expiredSignature
    else .ok p

/-- Exception-class attributes exported by the PyJWT package.  `import jwt`
in src/app.py line 23 binds PyJWT (the module-level `jwt.encode(payload, key,
algorithm=...)` / `jwt.decode(token, key, algorithms=[...])` signatures used
at lines 182 and 187 are PyJWT's).  PyJWT exports the names below and has no
attribute `JWTError` — that name belongs to the python-jose package, whose
module is `jose`, not `jwt`.  Evaluating the clause `except jwt.JWTError` at
src/app.py line 192 therefore raises `AttributeError` instead of matching. -/
def pyjwtModuleAttrs : List String :=
  ["PyJWTError", "InvalidTokenError", "DecodeError", "InvalidSignatureError",
   "ExpiredSignatureError", "InvalidAudienceError", "InvalidIssuerError",
   "InvalidIssuedAtError", "ImmatureSignatureError", "InvalidKeyError",
   "InvalidAlgorithmError", "MissingRequiredClaimError"]

/-- An error escaping a handler to the HTTP boundary: either a raised
`HTTPException(status_code, detail)`, or a non-HTTP Python exception (here:
the `AttributeError` from resolving a missing module attribute), which
FastAPI surfaces as a generic 500 internal server error response. -/
inductive AppError where
  | httpException (statusCode : Nat) (detail : String)
  | attributeError (missingAttr : String)
deriving DecidableEq, Repr

/-- src/app.py lines 173-182, `create_access_token(user_id, email)`: embed
`exp = utcnow() + timedelta(hours=JWT_EXPIRATION_HOURS)` and `iat = utcnow()`
and sign with the process key and algorithm. -/
def create_access_token (cfg : Config) (now : Int) (user_id : Int) (email : String) : JwtToken :=
  jwtEncode cfg.JWT_SECRET_KEY cfg.JWT_ALGORITHM
    { user_id := user_id, email := email,
      exp := now + 3600 * cfg.JWT_EXPIRATION_HOURS, iat := now }

/-- src/app.py lines 184-194, `decode_token(token)`: call `jwt.decode`; on
`jwt.ExpiredSignatureError` raise `HTTPException(401, "Token has expired")`;
on any other PyJWT error, the clause `except jwt.JWTError` is evaluated, and
since `"JWTError"` is not an attribute of the PyJWT module this evaluation
itself raises `AttributeError("JWTError")`, which escapes `decode_token`. -/
def decode_token (cfg : Config) (now : Int) (token : JwtToken) : Except AppError Payload :=
  match jwtDecode cfg.JWT_SECRET_KEY cfg.JWT_ALGORITHM now token with
  | .ok payload => .ok payload
  | .error .expiredSignature => .error (.httpException 401 "Token has expired")
  | .error _ =>
    if pyjwtModuleAttrs.contains "JWTError" then
      .error (.httpException 401 "Invalid token")
    else
      .error (.attributeError "JWTError")

/-- The payload a well-formed token carries (its middle segment). -/
def token_payload : JwtToken → Option Payload
  | .malformed _ => none
  | .signed _ p _ => some p

/-- A stored bcrypt digest: a well-formed digest embeds its salt and the
hashed secret (ideal one-way function), a malformed digest is anything else
sitting in the `password_hash` column. -/
inductive StoredHash where
  | bcrypt (salt : Nat) (secret : String)
  | malformed (raw : String)
deriving DecidableEq, Repr

/-- Model of `bcrypt.checkpw`: compare the secret against a well-formed
digest; raise (return `.error`) on a malformed digest. -/
def bcrypt_checkpw (plain : String) : StoredHash → Except String Bool
  | .bcrypt _ secret => .ok (plain = secret)
  | .malformed _ => .error "Invalid salt"

/-- src/app.py lines 160-163, `hash_password`: bcrypt with a fresh salt and
cost factor 12. -/
def hash_password (salt : Nat) (password : String) : StoredHash :=
  .bcrypt salt password

/-- src/app.py lines 165-171, `verify_password`: `bcrypt.checkpw` wrapped in
a try/except that logs and returns `False` on any internal failure. -/
def verify_password (plain : String) (hashed : StoredHash) : Bool :=
  match bcrypt_checkpw plain hashed with
  | .ok b => b
  | .error _ => false

/-- A row of the `users` table. -/
structure UserRow where
  id : Int
  email : String
  password_hash : StoredHash
  first_name : String
  last_name : String
deriving DecidableEq, Repr

/-- The authenticated identity dict `{id, email, first_name, last_name}`
returned by the session resolver and the login/register responses. -/
structure Identity where
  id : Int
  email : String
  first_name : String
  last_name : String
deriving DecidableEq, Repr

/-- Project a user row onto the columns `id, email, first_name, last_name`. -/
def identityOf (u : UserRow) : Identity :=
  { id := u.id, email := u.email, first_name := u.first_name, last_name := u.last_name }

/-- `fetchrow("SELECT ... FROM users WHERE email = $1", email)`. -/
def find_user_by_email (db : List UserRow) (email : String) : Option UserRow :=
  db.find? (fun u => u.email = email)

/-- `fetchrow("SELECT id, email, first_name, last_name FROM users WHERE id = $1", uid)`. -/
def find_user_by_id (db : List UserRow) (uid : Int) : Option Identity :=
  (db.find? (fun u => u.id = uid)).map identityOf

/-- The body of a successful login/register response: the token, the literal
token type `"bearer"`, and the user dict. -/
structure TokenResponseM where
  access_token : JwtToken
  token_type : String
  user : Identity
deriving DecidableEq, Repr

/-- src/app.py lines 347-394, `login`: look the user up by email; if there is
no row or the password does not verify, raise the one generic
`HTTPException(401, "Invalid email or password")`; otherwise issue a token
and return it with the user dict.  (The cookie set on the response carries
the same token and is not modelled separately.) -/
def login (cfg : Config) (db : List UserRow) (now : Int) (email password : String) :
    Except AppError TokenResponseM :=
  match find_user_by_email db email with
  | none => .error (.httpException 401 "Invalid email or password")
  | some u =>
    if verify_password password u.password_hash then
      .ok { access_token := create_access_token cfg now u.id u.email,
            token_type := "bearer", user := identityOf u }
    else
      .error (.httpException 401 "Invalid email or password")

/-- src/app.py lines 196-214, `get_current_user_from_cookie`: absent (or
empty, by Python falsiness) cookie fails with 401 "Not authenticated"; then
`decode_token` verifies the token (its errors propagate); then the subject id
is looked up in `users`, failing with 401 "User not found" when no row
exists; otherwise the identity dict is returned. -/
def get_current_user_from_cookie (cfg : Config) (db : List UserRow) (now : Int)
    (access_token : Option JwtToken) : Except AppError Identity :=
  match access_token with
  | none => .error (.httpException 401 "Not authenticated")
  | some tok =>
    match decode_token cfg now tok with
    | .error e => .error e
    | .ok payload =>
      match find_user_by_id db payload.user_id with
      | none => .error (.httpException 401 "User not found")
      | some u => .ok u

/-- True of a character matched by the Python regex `[A-Z]`. -/
def isUpperAZ (c : Char) : Bool := 'A' ≤ c && c ≤ 'Z'

/-- True of a character matched by the Python regex `[a-z]`. -/
def isLowerAZ (c : Char) : Bool := 'a' ≤ c && c ≤ 'z'

/-- True of a character matched by `\d` (ASCII decimal digits; see the file
header note about non-ASCII Unicode digits). -/
def isDigit09 (c : Char) : Bool := '0' ≤ c && c ≤ '9'

/-- The punctuation set of the regex at src/app.py line 109:
`[!@#$%^&*(),.?\":\x7b\x7d|<>]`. -/
def specialChars : List Char :=
  ['!', '@', '#', '$', '%', '^', '&', '*', '(', ')', ',', '.', '?', '\"',
   ':', '\x7b', '\x7d', '|', '<', '>']

/-- src/app.py lines 99-110, `validate_password_strength`: raise `ValueError`
with the first violated clause's message (too short, no uppercase, no
lowercase, no digit, no special character), in source order; return `None`
(here `.ok ()`) when every clause holds. -/
def validate_password_strength (password : String) : Except String Unit :=
  if password.data.length < 12 then
    .error "Password must be at least 12 characters long"
  else if ¬ password.data.any isUpperAZ then
    .error "Password must contain at least one uppercase letter"
  else if ¬ password.data.any isLowerAZ then
    .error "Password must contain at least one lowercase letter"
  else if ¬ password.data.any isDigit09 then
    .error "Password must contain at least one number"
  else if ¬ password.data.any (fun c => specialChars.contains c) then
    .error "Password must contain at least one special character"
  else
    .ok ()

/-- The password policy exactly as the spec words it (section 4.6): length at
least 12, at least one uppercase, one lowercase, one digit, and one symbol
from the defined punctuation set. -/
def passwordPolicyHolds (password : String) : Bool :=
  12 ≤ password.data.length && password.data.any isUpperAZ
    && password.data.any isLowerAZ && password.data.any isDigit09
    && password.data.any (fun c => specialChars.contains c)

/-- True of a character matched by Python's `\s` on ASCII input, which is
also the set `str.strip()` removes there: space, tab, newline, carriage
return, vertical tab, form feed. -/
def isPySpace (c : Char) : Bool :=
  c = ' ' || c = '\t' || c = '\n' || c = '\r' || c = '\x0b' || c = '\x0c'

/-- True of a character in the name regex class `[a-zA-Z\s\-]`
(src/app.py line 129): letters, whitespace, hyphen. -/
def nameCharOk (c : Char) : Bool :=
  isLowerAZ c || isUpperAZ c || isPySpace c || c = '-'

/-- Model of Python `str.strip()` on a character sequence: drop leading and
trailing whitespace. -/
def pyStripList (l : List Char) : List Char :=
  ((l.dropWhile isPySpace).reverse.dropWhile isPySpace).reverse

/-- Model of Python `str.strip()`: drop leading and trailing whitespace. -/
def pyStrip (s : String) : String :=
  ⟨pyStripList s.data⟩

/-- src/app.py lines 124-131, the `first_name`/`last_name` validator: reject
when the length is outside [1,50]; reject when some character is outside
letters/whitespace/hyphen (the regex `^[a-zA-Z\s\-]+$` matches exactly when
every character is in the class, given length ≥ 1); otherwise the value
stored is the input with whitespace stripped from both ends. -/
def validate_name (v : String) : Except String String :=
  if v.data.length < 1 ∨ 50 < v.data.length then
    .error "Name must be between 1 and 50 characters"
  else if ¬ v.data.all nameCharOk then
    .error "Name can only contain letters, spaces, and hyphens"
  else
    .ok (pyStrip v)

/-- Modelled from the spec (section 4.3): the dual-mode credential
extraction policy — prefer the named cookie; if absent, fall back to the
bearer-scheme authorization header.  src/app.py declares the bearer parser
(`security = HTTPBearer()`, line 96) but the dual-mode extractor itself is
not in src/; only the cookie-only policy (`get_current_user_from_cookie`)
is.  `bearer` is the credential carried by an `Authorization: Bearer ...`
header when one is present. -/
def extract_dual_mode (cookie : Option JwtToken) (bearer : Option JwtToken) :
    Option JwtToken :=
  match cookie with
  | some t => some t
  | none => bearer

/-- Modelled from the spec (sections 4.3-4.4): session resolution under the
dual-mode policy — extract a raw token (cookie preferred), fail
`Unauthenticated` when neither source is present, then verify and resolve
exactly as the cookie-only resolver does. -/
def dual_mode_resolve (cfg : Config) (db : List UserRow) (now : Int)
    (cookie : Option JwtToken) (bearer : Option JwtToken) : Except AppError Identity :=
  get_current_user_from_cookie cfg db now (extract_dual_mode cookie bearer)

/-- The subject id dual-mode resolution proceeds with: the `user_id` claim of
the extracted token when it verifies. -/
def dual_mode_subject (cfg : Config) (now : Int)
    (cookie : Option JwtToken) (bearer : Option JwtToken) : Option Int :=
  match extract_dual_mode cookie bearer with
  | none => none
  | some t =>
    match jwtDecode cfg.JWT_SECRET_KEY cfg.JWT_ALGORITHM now t with
    | .ok p => some p.user_id
    | .error _ => none

/-- State of one fixed rate-limit window for one (client, route) key: the
window's start time and the number of hits recorded in it. -/
structure WindowState where
  start : Int
  count : Nat
deriving DecidableEq, Repr

/-- Modelled from the spec (section 4.5) and the slowapi/limits dependency's
fixed-window strategy: the first hit on a fresh or elapsed key opens a window
anchored at the current time with count 1; within a live window every hit
increments the counter; a hit is admitted exactly when its incremented count
is within the quota `n`.  Returns the decision and the updated state. -/
def rateAdmit (n : Nat) (w : Int) (st : Option WindowState) (now : Int) :
    Bool × WindowState :=
  match st with
  | none => (decide (1 ≤ n), ⟨now, 1⟩)
  | some s =>
    if s.start + w ≤ now then (decide (1 ≤ n), ⟨now, 1⟩)
    else (decide (s.count + 1 ≤ n), ⟨s.start, s.count + 1⟩)

/-- Run the admission controller over a sequence of request timestamps,
returning the per-request decisions and the final window state. -/
def rateRun (n : Nat) (w : Int) (st : Option WindowState) :
    List Int → List Bool × Option WindowState
  | [] => ([], st)
  | t :: ts =>
    let d := rateAdmit n w st t
    let r := rateRun n w (some d.2) ts
    (d.1 :: r.1, r.2)

/-- The per-route quotas declared in src/app.py: `@limiter.limit("3/hour")`
on `/api/register` (line 291), `@limiter.limit("5/minute")` on `/api/login`
(line 348), `@limiter.limit("10/minute")` on `/predict` (line 435).  The
window span is in seconds. -/
def routeQuota (route : String) : Option (Nat × Int) :=
  if route = "/api/register" then some (3, 3600)
  else if route = "/api/login" then some (5, 60)
  else if route = "/predict" then some (10, 60)
  else none

/-- src/app.py line 409: the classifier's label list. -/
def CLASS_NAMES : List String :=
  ["Early_blight", "Late_blight", "Tomato_Yellow_Leaf_Curl_Virus", "healthy"]

/-- Outcomes of the three effectful stages inside the `try` block of
`predict` (src/app.py lines 451-479), as collaborator results: the tensor
preprocessing of the validated image, the model inference (yielding the
argmax index into `CLASS_NAMES` and the confidence — floats are carried as
an opaque model value), and the `INSERT INTO analyses` statement, whose
outcome may depend on the row being written. -/
structure PredictDeps where
  preprocessR : Except String Unit
  inferR : Except String (Fin CLASS_NAMES.length × Int)
  insertR : String → Int → Except String Unit

/-- The response body `{"class": predicted_class, "confidence": confidence}`
of a successful prediction. -/
structure PredictResponse where
  predicted_class : String
  confidence : Int
deriving DecidableEq, Repr

/-- src/app.py lines 434-479, the `try` block of `predict` (the image was
already validated before the block): preprocess, run the model, persist the
analysis row, then return the classification; any exception raised by any of
the three stages is caught by `except Exception` and re-raised as the one
generic `HTTPException(500, "Prediction failed")`. -/
def predict (current_user : Identity) (deps : PredictDeps) :
    Except AppError PredictResponse :=
  match deps.preprocessR with
  | .error _ => .error (.httpException 500 "Prediction failed")
  | .ok () =>
    match deps.inferR with
    | .error _ => .error (.httpException 500 "Prediction failed")
    | .ok (idx, conf) =>
      match deps.insertR (CLASS_NAMES.get idx) conf with
      | .error _ => .error (.httpException 500 "Prediction failed")
      | .ok () => .ok { predicted_class := CLASS_NAMES.get idx, confidence := conf }

/-- Equality of collaborator results is decidable; used to evaluate the
model on concrete inputs. -/
instance {ε : Type u} {α : Type v} [DecidableEq ε] [DecidableEq α] :
    DecidableEq (Except ε α) := fun x y =>
  match x, y with
  | .ok a, .ok b =>
    if h : a = b then isTrue (h ▸ rfl) else isFalse (fun he => h (by injection he))
  | .error e, .error f =>
    if h : e = f then isTrue (h ▸ rfl) else isFalse (fun he => h (by injection he))
  | .ok _, .error _ => isFalse (fun he => Except.noConfusion he)
  | .error _, .ok _ => isFalse (fun he => Except.noConfusion he)

/-- A concrete process configuration used to evaluate the model. -/
def cfg0 : Config := { JWT_SECRET_KEY := "process-key" }

/-- Characters surviving a strip are characters of the original string. -/
lemma pyStripList_subset (l : List Char) : pyStripList l ⊆ l := by
  intro c hc
  rw [pyStripList, List.mem_reverse] at hc
  have h1 := List.dropWhile_subset isPySpace hc
  rw [List.mem_reverse] at h1
  exact List.dropWhile_subset isPySpace h1

/-- Stripping never lengthens a string. -/
lemma pyStripList_length_le (l : List Char) : (pyStripList l).length ≤ l.length := by
  rw [pyStripList, List.length_reverse]
  calc ((l.dropWhile isPySpace).reverse.dropWhile isPySpace).length
      ≤ (l.dropWhile isPySpace).reverse.length :=
        (List.dropWhile_sublist isPySpace).length_le
    _ = (l.dropWhile isPySpace).length := List.length_reverse _
    _ ≤ l.length := (List.dropWhile_sublist isPySpace).length_le

/-- C4: for every registration password, validation fails exactly when at
least one policy clause is violated (length < 12, or no uppercase, no
lowercase, no digit, or no symbol from the defined punctuation set); in
particular "short1!" is rejected and "LongPassword1!" is accepted. -/
theorem C4_password_policy_iff :
    (∀ p : String,
      (∃ m, validate_password_strength p = .error m) ↔ ¬ passwordPolicyHolds p = true)
    ∧ validate_password_strength "short1!" =
        .error "Password must be at least 12 characters long"
    ∧ validate_password_strength "LongPassword1!" = .ok () := by
  refine ⟨fun p => ?_, by decide, by decide⟩
  unfold validate_password_strength passwordPolicyHolds
  split_ifs with h1 h2 h3 h4 h5 <;>
    simp_all [Nat.not_le, Nat.lt_iff_add_one_le]

/-- C5 counterexample: the whitespace-only name " " is accepted by the name
validator, yet the value stored after trimming is the empty string, whose
length is 0, outside [1,50]. -/
theorem C5_whitespace_name_counterexample :
    validate_name " " = .ok "" ∧ ¬ 1 ≤ ("" : String).data.length := by
  exact ⟨by decide, by decide⟩

/-- C5 (amended): every accepted name has pre-trim length in [1,50] and only
letters/whitespace/hyphens; the stored (trimmed) value keeps those characters
and has length at most 50 — but can be empty when the input was whitespace
only; every input violating the length or character policy is rejected. -/
theorem C5_name_policy_amended :
    (∀ v r : String, validate_name v = .ok r →
      1 ≤ v.data.length ∧ v.data.length ≤ 50 ∧ v.data.all nameCharOk = true ∧
      r = pyStrip v ∧ r.data.length ≤ 50 ∧ r.data.all nameCharOk = true)
    ∧ (∀ v : String,
        (v.data.length < 1 ∨ 50 < v.data.length ∨ ¬ v.data.all nameCharOk = true) →
        ∃ m, validate_name v = .error m) := by
  constructor
  · intro v r hok
    unfold validate_name at hok
    by_cases h1 : v.data.length < 1 ∨ 50 < v.data.length
    · rw [if_pos h1] at hok
      exact absurd hok (by simp)
    · rw [if_neg h1] at hok
      by_cases h2 : v.data.all nameCharOk = true
      · rw [if_neg (not_not_intro h2)] at hok
        have hr : r = pyStrip v := by
          injection hok with h
          exact h.symm
        push_neg at h1
        refine ⟨h1.1, h1.2, h2, hr, ?_, ?_⟩
        · rw [hr]
          exact le_trans (pyStripList_length_le v.data) h1.2
        · rw [hr]
          rw [List.all_eq_true] at h2 ⊢
          intro c hc
          exact h2 c (pyStripList_subset v.data hc)
      · rw [if_pos h2] at hok
        exact absurd hok (by simp)
  · intro v hviol
    unfold validate_name
    rcases hviol with h | h | h
    · rw [if_pos (Or.inl h)]
      exact ⟨_, rfl⟩
    · rw [if_pos (Or.inr h)]
      exact ⟨_, rfl⟩
    · by_cases h1 : v.data.length < 1 ∨ 50 < v.data.length
      · rw [if_pos h1]
        exact ⟨_, rfl⟩
      · rw [if_neg h1, if_pos h]
        exact ⟨_, rfl⟩

/-- C5 amended witness: the accepted name "Ada" satisfies every conjunct of
the amended storage property. -/
theorem C5_amended_witness :
    1 ≤ ("Ada" : String).data.length ∧ ("Ada" : String).data.length ≤ 50 ∧
    ("Ada" : String).data.all nameCharOk = true ∧ ("Ada" : String) = pyStrip "Ada" ∧
    (pyStrip "Ada").data.length ≤ 50 ∧ (pyStrip "Ada").data.all nameCharOk = true := by
  have h := C5_name_policy_amended.1 "Ada" "Ada" (by decide)
  exact ⟨h.1, h.2.1, h.2.2.1, h.2.2.2.1, h.2.2.2.1 ▸ h.2.2.2.2.1, h.2.2.2.1 ▸ h.2.2.2.2.2⟩

/-- A token held to be invalid in the sense of the spec: structurally
malformed, or carrying a header algorithm other than the configured one, or
carrying a signature that was not produced with the process key and the
configured algorithm over the token's own payload (which covers any
tampering with a validly signed token: changing the payload, the signature
or the algorithm breaks the signature check). -/
def jwtInvalid (cfg : Config) (t : JwtToken) : Prop :=
  (∃ raw, t = .malformed raw) ∨
  (∃ h p s, t = .signed h p s ∧ h ≠ cfg.JWT_ALGORITHM) ∨
  (∃ h p s, t = .signed h p s ∧ s ≠ ⟨cfg.JWT_SECRET_KEY, cfg.JWT_ALGORITHM, p⟩)

/-- C2: every invalid token (malformed, wrong algorithm, or signature
mismatch — including any tampered copy of a valid token) is refused by the
verifier, never accepted; but instead of the intended 401 "Invalid token"
response, `decode_token` escapes with `AttributeError`: the clause
`except jwt.JWTError` at src/app.py line 192 names an attribute PyJWT does
not export, so evaluating it raises rather than matches.  The code therefore
contradicts the spec's "fails with Invalid ... never escapes as any other
kind of error". -/
theorem C2_invalid_token_escapes_as_attribute_error (cfg : Config) (now : Int)
    (t : JwtToken) (hinv : jwtInvalid cfg t) :
    (∀ p, jwtDecode cfg.JWT_SECRET_KEY cfg.JWT_ALGORITHM now t ≠ .ok p) ∧
    decode_token cfg now t = .error (.attributeError "JWTError") := by
  have hdec : ∃ e, e ≠ PyJwtError.expiredSignature ∧
      jwtDecode cfg.JWT_SECRET_KEY cfg.JWT_ALGORITHM now t = .error e := by
    rcases hinv with ⟨raw, rfl⟩ | ⟨h, p, s, rfl, halg⟩ | ⟨h, p, s, rfl, hsig⟩
    · exact ⟨.decodeError, by simp, rfl⟩
    · exact ⟨.invalidAlgorithm, by simp, by simp [jwtDecode, halg]⟩
    · by_cases halg : h = cfg.JWT_ALGORITHM
      · exact ⟨.invalidSignature, by simp, by simp [jwtDecode, halg, hsig]⟩
      · exact ⟨.invalidAlgorithm, by simp, by simp [jwtDecode, halg]⟩
  rcases hdec with ⟨e, hne, he⟩
  constructor
  · intro p hp
    rw [he] at hp
    exact Except.noConfusion hp
  · rw [decode_token, he]
    cases e with
    | expiredSignature => exact absurd rfl hne
    | invalidSignature => rfl
    | decodeError => rfl
    | invalidAlgorithm => rfl

/-- C2 witness: a validly issued token whose payload was tampered with
(subject id 1 changed to 2, signature left over the original payload) is
invalid, and `decode_token` on it raises `AttributeError`. -/
theorem C2_witness :
    decode_token cfg0 0
        (.signed "HS256" ⟨2, "a@b.c", 86400, 0⟩
          ⟨"process-key", "HS256", ⟨1, "a@b.c", 86400, 0⟩⟩) =
      .error (.attributeError "JWTError") :=
  (C2_invalid_token_escapes_as_attribute_error cfg0 0
    (.signed "HS256" ⟨2, "a@b.c", 86400, 0⟩
      ⟨"process-key", "HS256", ⟨1, "a@b.c", 86400, 0⟩⟩)
    (Or.inr (Or.inr ⟨"HS256", ⟨2, "a@b.c", 86400, 0⟩,
      ⟨"process-key", "HS256", ⟨1, "a@b.c", 86400, 0⟩⟩, rfl, by decide⟩))).2

/-- C1: the Expired and Invalid verification failures do NOT surface as one
identical generic unauthorized response.  Evaluating the code: an expired
token yields `HTTPException(401, "Token has expired")`, while a tampered
token yields an escaping `AttributeError` (surfaced by the framework as a
500 internal server error), and even the intended handler would have
produced the distinct detail "Invalid token".  The two client-visible
responses differ, revealing which failure occurred. -/
theorem C1_failure_kinds_distinguishable :
    decode_token cfg0 100000 (create_access_token cfg0 0 1 "a@b.c") =
      .error (.httpException 401 "Token has expired") ∧
    decode_token cfg0 100000
        (.signed "HS256" ⟨2, "a@b.c", 200000, 0⟩
          ⟨"process-key", "HS256", ⟨1, "a@b.c", 200000, 0⟩⟩) =
      .error (.attributeError "JWTError") ∧
    (AppError.httpException 401 "Token has expired" ≠ .attributeError "JWTError") := by
  exact ⟨by decide, by decide, by decide⟩

/-- C3: a token issued at `now` with TTL `T` hours embeds
`exp = iat + 3600 * T` with `iat = now`; verification succeeds immediately
after issuance; and once the current time has advanced past the TTL,
verification fails with the Expired kind (`HTTPException(401, "Token has
expired")` — this branch of `decode_token` catches the real
`jwt.ExpiredSignatureError` attribute and works as specified). -/
theorem C3_ttl_expiry (cfg : Config) (now uid : Int) (email : String)
    (hT : 0 < cfg.JWT_EXPIRATION_HOURS) :
    token_payload (create_access_token cfg now uid email) =
      some { user_id := uid, email := email,
             exp := now + 3600 * cfg.JWT_EXPIRATION_HOURS, iat := now } ∧
    (∀ p, token_payload (create_access_token cfg now uid email) = some p →
      p.exp = p.iat + 3600 * cfg.JWT_EXPIRATION_HOURS) ∧
    decode_token cfg now (create_access_token cfg now uid email) =
      .ok { user_id := uid, email := email,
            exp := now + 3600 * cfg.JWT_EXPIRATION_HOURS, iat := now } ∧
    (∀ later, now + 3600 * cfg.JWT_EXPIRATION_HOURS < later →
      decode_token cfg later (create_access_token cfg now uid email) =
        .error (.httpException 401 "Token has expired")) := by
  refine ⟨rfl, ?_, ?_, ?_⟩
  · intro p hp
    injection hp with hp
    rw [← hp]
  · have hdec : jwtDecode cfg.JWT_SECRET_KEY cfg.JWT_ALGORITHM now
        (create_access_token cfg now uid email) =
        .ok { user_id := uid, email := email,
              exp := now + 3600 * cfg.JWT_EXPIRATION_HOURS, iat := now } := by
      rw [create_access_token, jwtEncode, jwtDecode]
      rw [if_neg (by simp), if_neg (by simp)]
      rw [if_neg (by simp only [not_le]; omega)]
    rw [decode_token, hdec]
  · intro later hlater
    have hdec : jwtDecode cfg.JWT_SECRET_KEY cfg.JWT_ALGORITHM later
        (create_access_token cfg now uid email) = .error .expiredSignature := by
      rw [create_access_token, jwtEncode, jwtDecode]
      rw [if_neg (by simp), if_neg (by simp)]
      rw [if_pos (by simp only []; omega)]
    rw [decode_token, hdec]

/-- C3 witness: with the default 24-hour TTL, a token issued at time 0
verifies at time 0 and is refused as expired at time 100000 (past 86400). -/
theorem C3_witness :
    decode_token cfg0 0 (create_access_token cfg0 0 1 "a@b.c") =
      .ok { user_id := 1, email := "a@b.c", exp := 0 + 3600 * 24, iat := 0 } ∧
    decode_token cfg0 100000 (create_access_token cfg0 0 1 "a@b.c") =
      .error (.httpException 401 "Token has expired") := by
  have h := C3_ttl_expiry cfg0 0 1 "a@b.c" (by decide)
  exact ⟨h.2.2.1, h.2.2.2 100000 (by decide)⟩

/-- C6: a login attempt with an existing email and a wrong password and a
login attempt with a nonexistent email produce identical client-visible
responses: the one generic `HTTPException(401, "Invalid email or password")`
raised at src/app.py line 363 covers both cases of the condition
`not user or not verify_password(...)`. -/
theorem C6_login_enumeration_resistance (cfg : Config) (db : List UserRow)
    (now : Int) (e1 p1 e2 p2 : String) (u : UserRow)
    (hfound : find_user_by_email db e1 = some u)
    (hwrong : verify_password p1 u.password_hash = false)
    (hmissing : find_user_by_email db e2 = none) :
    login cfg db now e1 p1 = login cfg db now e2 p2 ∧
    login cfg db now e1 p1 = .error (.httpException 401 "Invalid email or password") := by
  have h1 : login cfg db now e1 p1 =
      .error (.httpException 401 "Invalid email or password") := by
    simp [login, hfound, hwrong]
  have h2 : login cfg db now e2 p2 =
      .error (.httpException 401 "Invalid email or password") := by
    simp [login, hmissing]
  exact ⟨h1.trans h2.symm, h1⟩

/-- C6 witness: in a store holding one user `a@b.c`, logging in as `a@b.c`
with a wrong password and logging in as the absent `x@y.z` return the same
generic response. -/
theorem C6_witness :
    login cfg0 [⟨1, "a@b.c", .bcrypt 0 "Correct-horse-1!", "Ada", "Lovelace"⟩] 0
        "a@b.c" "wrong-guess" =
      login cfg0 [⟨1, "a@b.c", .bcrypt 0 "Correct-horse-1!", "Ada", "Lovelace"⟩] 0
        "x@y.z" "anything" ∧
    login cfg0 [⟨1, "a@b.c", .bcrypt 0 "Correct-horse-1!", "Ada", "Lovelace"⟩] 0
        "a@b.c" "wrong-guess" =
      .error (.httpException 401 "Invalid email or password") :=
  C6_login_enumeration_resistance cfg0
    [⟨1, "a@b.c", .bcrypt 0 "Correct-horse-1!", "Ada", "Lovelace"⟩] 0
    "a@b.c" "wrong-guess" "x@y.z" "anything"
    ⟨1, "a@b.c", .bcrypt 0 "Correct-horse-1!", "Ada", "Lovelace"⟩
    (by decide) (by decide) (by decide)

/-- C8: a token that verifies cryptographically but whose subject id has no
matching row in `users` makes session resolution fail with
`HTTPException(401, "User not found")` (src/app.py lines 210-212) — it is
neither an identity nor an anonymous pass-through. -/
theorem C8_orphaned_token_rejected (cfg : Config) (db : List UserRow) (now : Int)
    (tok : JwtToken) (p : Payload)
    (hdec : decode_token cfg now tok = .ok p)
    (hnouser : find_user_by_id db p.user_id = none) :
    get_current_user_from_cookie cfg db now (some tok) =
      .error (.httpException 401 "User not found") := by
  simp [get_current_user_from_cookie, hdec, hnouser]

/-- C8 witness: a freshly issued valid token for subject 1 against an empty
user store resolves to the 401 "User not found" failure. -/
theorem C8_witness :
    get_current_user_from_cookie cfg0 [] 0
        (some (create_access_token cfg0 0 1 "a@b.c")) =
      .error (.httpException 401 "User not found") :=
  C8_orphaned_token_rejected cfg0 [] 0 (create_access_token cfg0 0 1 "a@b.c")
    { user_id := 1, email := "a@b.c", exp := 0 + 3600 * 24, iat := 0 }
    (by decide) (by decide)

/-- C7: under the dual-mode policy, when both a valid cookie and a valid
bearer header are present with different subjects, the extractor
deterministically picks the cookie, resolution coincides with cookie-only
resolution of the cookie token, and the subject resolved is the cookie's,
not the header's. -/
theorem C7_cookie_wins_over_bearer (cfg : Config) (db : List UserRow) (now : Int)
    (ct bt : JwtToken) (p1 p2 : Payload)
    (hct : jwtDecode cfg.JWT_SECRET_KEY cfg.JWT_ALGORITHM now ct = .ok p1)
    (hbt : jwtDecode cfg.JWT_SECRET_KEY cfg.JWT_ALGORITHM now bt = .ok p2)
    (hne : p1.user_id ≠ p2.user_id) :
    extract_dual_mode (some ct) (some bt) = some ct ∧
    dual_mode_resolve cfg db now (some ct) (some bt) =
      get_current_user_from_cookie cfg db now (some ct) ∧
    dual_mode_subject cfg now (some ct) (some bt) = some p1.user_id ∧
    dual_mode_subject cfg now (some ct) (some bt) ≠ some p2.user_id := by
  refine ⟨rfl, rfl, ?_, ?_⟩
  · simp [dual_mode_subject, extract_dual_mode, hct]
  · simp [dual_mode_subject, extract_dual_mode, hct, hne]

/-- C7 witness: with a cookie token for subject 1 and a bearer token for
subject 2 both valid, dual-mode resolution proceeds with subject 1. -/
theorem C7_witness :
    dual_mode_subject cfg0 0 (some (create_access_token cfg0 0 1 "a@b.c"))
        (some (create_access_token cfg0 0 2 "c@d.e")) = some 1 :=
  (C7_cookie_wins_over_bearer cfg0 [] 0
    (create_access_token cfg0 0 1 "a@b.c") (create_access_token cfg0 0 2 "c@d.e")
    { user_id := 1, email := "a@b.c", exp := 0 + 3600 * 24, iat := 0 }
    { user_id := 2, email := "c@d.e", exp := 0 + 3600 * 24, iat := 0 }
    (by decide) (by decide) (by decide)).2.2.1

/-- Inside a live window, a hit sequence starting from count `n - r` (with
`r ≤ n`, so `r` admissions of headroom remain) admits exactly the next `r`
requests and rejects the following one, leaving the counter at `n + 1`. -/
lemma rateRun_window_aux (n : Nat) (w t0 : Int) :
    ∀ (r : Nat) (ts : List Int), ts.length = r + 1 → r ≤ n →
      (∀ t ∈ ts, t0 ≤ t ∧ t < t0 + w) →
      rateRun n w (some ⟨t0, n - r⟩) ts =
        (List.replicate r true ++ [false], some ⟨t0, n + 1⟩) := by
  intro r
  induction r with
  | zero =>
    intro ts hlen hr hw
    cases ts with
    | nil => simp at hlen
    | cons t ts' =>
      cases ts' with
      | cons a b => simp at hlen
      | nil =>
        have hwt := hw t (List.mem_cons_self t [])
        have hnr : ¬ (t0 + w ≤ t) := not_le.mpr hwt.2
        simp [rateRun, rateAdmit, hnr]
  | succ r ih =>
    intro ts hlen hr hw
    cases ts with
    | nil => simp at hlen
    | cons t ts' =>
      have hwt := hw t (List.mem_cons_self t ts')
      have hnr : ¬ (t0 + w ≤ t) := not_le.mpr hwt.2
      have hadm : n - (r + 1) + 1 ≤ n := by omega
      have hcount : n - (r + 1) + 1 = n - r := by omega
      have hlen' : ts'.length = r + 1 := by simpa using hlen
      have hih := ih ts' hlen' (by omega) (fun x hx => hw x (List.mem_cons_of_mem t hx))
      simp [rateRun, rateAdmit, hnr, hadm, hcount, hih, List.replicate_succ]

/-- C9: for a route configured with quota `n` per window `w` seconds (3 per
hour for registration, 5 per minute for login, 10 per minute for the
inference route), a client's first `n` requests inside one window are
admitted, the `(n+1)`-th is rejected, and the first request at or after the
window's end is admitted again.  The window state shown is the one fixed
window the limiter keeps for this (client, route) key. -/
theorem C9_fixed_window_quota (route : String) (n : Nat) (w : Int)
    (hq : routeQuota route = some (n, w))
    (t1 : Int) (rest : List Int) (hlen : rest.length = n)
    (hwin : ∀ t ∈ rest, t1 ≤ t ∧ t < t1 + w)
    (tAfter : Int) (hAfter : t1 + w ≤ tAfter) :
    (rateRun n w none (t1 :: rest)).1 = List.replicate n true ++ [false] ∧
    (rateAdmit n w (rateRun n w none (t1 :: rest)).2 tAfter).1 = true := by
  have hn : 1 ≤ n := by
    rw [routeQuota] at hq
    split_ifs at hq <;> simp at hq <;> omega
  have h1 : n - (n - 1) = 1 := by omega
  have haux := rateRun_window_aux n w t1 (n - 1) rest (by omega) (by omega) hwin
  rw [h1] at haux
  have hrun : rateRun n w none (t1 :: rest) =
      (true :: (List.replicate (n - 1) true ++ [false]), some ⟨t1, n + 1⟩) := by
    simp [rateRun, rateAdmit, haux, hn]
  have hrep : List.replicate n true = true :: List.replicate (n - 1) true := by
    conv_lhs => rw [show n = (n - 1) + 1 by omega]
    rw [List.replicate_succ]
  constructor
  · rw [hrun, hrep]
    simp
  · rw [hrun]
    simp [rateAdmit, if_pos hAfter, hn]

/-- C9 witness: on the login route (quota 5 per 60 seconds), six requests at
seconds 0,10,20,30,40,50 yield five admissions then a rejection, and a
request at second 60 is admitted again. -/
theorem C9_witness :
    (rateRun 5 60 none [0, 10, 20, 30, 40, 50]).1 =
      List.replicate 5 true ++ [false] ∧
    (rateAdmit 5 60 (rateRun 5 60 none [0, 10, 20, 30, 40, 50]).2 60).1 = true :=
  C9_fixed_window_quota "/api/login" 5 60 (by decide) 0 [10, 20, 30, 40, 50]
    (by decide) (by decide) 60 (by decide)

/-- C10: the classification result reaches the client only when the analysis
row was persisted — a successful response implies the preprocessing,
inference and insert all succeeded and the response is exactly the persisted
classification; every failure inside the block, including an insert failure
after a successful classification, is surfaced as the one generic
`HTTPException(500, "Prediction failed")` with no partial result. -/
theorem C10_result_only_if_persisted (user : Identity) (deps : PredictDeps) :
    (∀ resp, predict user deps = .ok resp →
      deps.preprocessR = .ok () ∧
      ∃ idx, deps.inferR = .ok (idx, resp.confidence) ∧
        resp.predicted_class = CLASS_NAMES.get idx ∧
        deps.insertR resp.predicted_class resp.confidence = .ok ()) ∧
    (∀ e, predict user deps = .error e → e = .httpException 500 "Prediction failed") ∧
    (∀ idx conf msg, deps.preprocessR = .ok () →
      deps.inferR = .ok (idx, conf) →
      deps.insertR (CLASS_NAMES.get idx) conf = .error msg →
      predict user deps = .error (.httpException 500 "Prediction failed")) := by
  obtain ⟨pr, fr, ir⟩ := deps
  refine ⟨?_, ?_, ?_⟩
  · intro resp h
    rcases pr with m | u
    · simp [predict] at h
    · cases u
      rcases fr with m | p
      · simp [predict] at h
      · obtain ⟨idx, conf⟩ := p
        rcases hins : ir (CLASS_NAMES.get idx) conf with m | u'
        · simp only [List.get_eq_getElem] at hins
          simp [predict, hins] at h
        · cases u'
          simp only [List.get_eq_getElem] at hins
          simp [predict, hins] at h
          refine ⟨rfl, idx, ?_, ?_, ?_⟩
          · rw [← h]
          · rw [← h]
            simp
          · rw [← h]
            exact hins
  · intro e h
    rcases pr with m | u
    · simp [predict] at h
      exact h.symm
    · cases u
      rcases fr with m | p
      · simp [predict] at h
        exact h.symm
      · obtain ⟨idx, conf⟩ := p
        rcases hins : ir (CLASS_NAMES.get idx) conf with m | u'
        · simp only [List.get_eq_getElem] at hins
          simp [predict, hins] at h
          exact h.symm
        · cases u'
          simp only [List.get_eq_getElem] at hins
          simp [predict, hins] at h
  · intro idx conf msg hpr hfr hins
    rcases pr with m | u
    · exact absurd hpr (by simp)
    · cases u
      rcases fr with m | p
      · exact absurd hfr (by simp)
      · obtain ⟨idx', conf'⟩ := p
        have hi : idx' = idx ∧ conf' = conf := by
          simp only at hfr
          injection hfr with hfr
          exact ⟨congrArg Prod.fst hfr, congrArg Prod.snd hfr⟩
        obtain ⟨rfl, rfl⟩ := hi
        simp only [List.get_eq_getElem] at hins
        simp [predict, hins]

/-- C10 witness: with preprocessing and inference succeeding (class index 3,
confidence model value 99) but the database insert failing, the endpoint
returns the generic 500 failure and no classification. -/
theorem C10_witness :
    predict { id := 1, email := "a@b.c", first_name := "Ada", last_name := "Lovelace" }
        { preprocessR := .ok (), inferR := .ok (⟨3, by decide⟩, 99),
          insertR := fun _ _ => .error "insert failed" } =
      .error (.httpException 500 "Prediction failed") :=
  (C10_result_only_if_persisted
    { id := 1, email := "a@b.c", first_name := "Ada", last_name := "Lovelace" }
    { preprocessR := .ok (), inferR := .ok (⟨3, by decide⟩, 99),
      insertR := fun _ _ => .error "insert failed" }).2.2
    ⟨3, by decide⟩ 99 "insert failed" rfl rfl rfl

end LeafApp
